import Mathlib

/-!
Verification development for `components/style/gecko/regen_atoms.py`, a
build-time source generator: it extracts `GK_ATOM(...)` records from a header
file with a regular expression, builds in-memory `Atom` records, and emits two
generated files (`atom_macro.rs` and `pseudo_element_definition.rs`) through a
change-aware writer (`FileAvoidWrite`) that only touches a file when its bytes
changed.

The Python source is shallowly embedded below: pure helpers become Lean
functions, the record constructor (which can raise `IndexError` or fail an
`assert`) returns `Option`, the regular expression `PATTERN` becomes a
deterministic parser (justified step by step against the backtracking
semantics in comments), and the filesystem becomes an explicit map from paths
to optional byte strings.
-/

namespace RegenAtoms

/-- Splits a character list at the first occurrence of `c`, returning the
segments before and after it, or `none` when `c` does not occur.  This is the
single-split building block for the Python call of split with a limit of one. -/
def splitFirstOn (c : Char) : List Char → Option (List Char × List Char)
  | [] => none
  | d :: ds =>
    if d = c then some ([], ds)
    else
      match splitFirstOn c ds with
      | none => none
      | some (a, b) => some (d :: a, b)

/-- Python `s.split(sep, 1)[1]` for a one-character separator: the part of `s`
after the first occurrence of `sep`, or `none` when there is none (in Python,
indexing `[1]` into the one-element list raises `IndexError`). -/
def splitOnceTail (sep : Char) (s : String) : Option String :=
  (splitFirstOn sep s.data).map fun p => String.mk p.2

/-- The `map_atom` from the source: appends `_` to identifiers that collide with a
reserved Rust keyword, and returns every other identifier unchanged. -/
def map_atom (ident : String) : String :=
  if ident ∈ ["box", "loop", "match", "mod", "ref",
              "self", "type", "use", "where", "in"]
  then ident ++ "_"
  else ident

/-- The in-memory record built by `Atom.__init__`.  `pseudo_ident` is only
assigned for pseudo-element / anon-box records, hence `Option`. -/
structure Atom where
  ident : String
  original_ident : String
  value : String
  hash : String
  ty : String
  atom_type : String
  pseudo_ident : Option String
  deriving Repr, DecidableEq

/-- The `Atom.type` from the source. -/
def Atom.type (a : Atom) : String := a.ty

/-- The `Atom.is_pseudo` from the source. -/
def Atom.is_pseudo (a : Atom) : Bool := a.atom_type == "PseudoElementAtom"

/-- The `Atom.is_non_inheriting_anon_box` from the source. -/
def Atom.is_non_inheriting_anon_box (a : Atom) : Bool :=
  a.atom_type == "NonInheritingAnonBoxAtom"

/-- The `Atom.is_inheriting_anon_box` from the source. -/
def Atom.is_inheriting_anon_box (a : Atom) : Bool :=
  a.atom_type == "InheritingAnonBoxAtom"

/-- The `Atom.is_anon_box` from the source: a disjunction of the two sub-variant
predicates. -/
def Atom.is_anon_box (a : Atom) : Bool :=
  a.is_non_inheriting_anon_box || a.is_inheriting_anon_box

/-- The `Atom.is_tree_pseudo_element` from the source. -/
def Atom.is_tree_pseudo_element (a : Atom) : Bool :=
  a.value.startsWith ":-moz-tree-"

/-- The same predicates on the raw `atom_type` tag, used while constructing. -/
def isPseudoTag (atom_type : String) : Bool := atom_type == "PseudoElementAtom"

/-- Tag-level version of `is_non_inheriting_anon_box`. -/
def isNonInheritingTag (atom_type : String) : Bool :=
  atom_type == "NonInheritingAnonBoxAtom"

/-- Tag-level version of `is_inheriting_anon_box`. -/
def isInheritingTag (atom_type : String) : Bool :=
  atom_type == "InheritingAnonBoxAtom"

/-- Tag-level version of `is_anon_box`. -/
def isAnonBoxTag (atom_type : String) : Bool :=
  isNonInheritingTag atom_type || isInheritingTag atom_type

/-- The `Atom.__init__` from the source.  `self.ident` is
`"nsGkAtoms_{}".format(ident)` — note that `map_atom` is NOT applied.  When the
record is a pseudo element or an anon box, `pseudo_ident` is
`ident.split("_", 1)[1]`, which raises `IndexError` (here: `none`) when the
identifier has no underscore.  The constructor then asserts, for anon boxes,
that one of the two anon-box sub-variant predicates holds (here: `none` on
assertion failure, though the condition is implied by `is_anon_box`). -/
def mkAtom (ident value hash ty atom_type : String) : Option Atom :=
  let qualified := "nsGkAtoms_" ++ ident
  if isPseudoTag atom_type || isAnonBoxTag atom_type then
    match splitOnceTail '_' ident with
    | none => none
    | some p =>
      if isAnonBoxTag atom_type &&
          !(isInheritingTag atom_type || isNonInheritingTag atom_type) then
        none
      else
        some ⟨qualified, ident, value, hash, ty, atom_type, some p⟩
  else
    some ⟨qualified, ident, value, hash, ty, atom_type, none⟩

/-- The `PRELUDE` from the source (a triple-quoted literal with its leading newline
stripped by `[1:]`). -/
def PRELUDE : String :=
  "/* This Source Code Form is subject to the terms of the Mozilla Public\n * License, v. 2.0. If a copy of the MPL was not distributed with this\n * file, You can obtain one at http://mozilla.org/MPL/2.0/. */\n\n// Autogenerated file created by components/style/gecko/regen_atoms.py.\n// DO NOT EDIT DIRECTLY\n"

/-- The `IMPORTS` from the source (leading newline kept: no `[1:]`). -/
def IMPORTS : String :=
  "\nuse gecko_bindings::structs::nsStaticAtom;\nuse string_cache::Atom;\n"

/-- The `UNSAFE_STATIC` from the source (leading newline kept). -/
def UNSAFE_STATIC : String :=
  "\n#[inline(always)]\npub unsafe fn atom_from_static(ptr: *const nsStaticAtom) -> Atom \x7b\n    Atom::from_static(ptr)\n\x7d\n"

/-- The `SATOMS_TEMPLATE.format(link_name=...)` from the source (`[1:]` strips the
leading newline). -/
def SATOMS_TEMPLATE (link_name : String) : String :=
  "            #[link_name = \"" ++ link_name ++ "\"]\n            pub static nsGkAtoms_sAtoms: *const nsStaticAtom;\n"

/-- The non-MSVC mangled name `gnu_name` from `write_atom_macro`. -/
def gnu_name : String := "_ZN9nsGkAtoms6sAtomsE"

/-- The escape text prepended to a link name to stop LLVM from prefixing the
mangled name with an underscore: in Python source a backslash followed by
`x01`, four characters as they appear in the generated file. -/
def ESCAPE_MARKER : String := "\\x01"

/-- The `msvc32_name` from `write_atom_macro`: the 32-bit MSVC mangled name with
the escape marker prepended. -/
def msvc32_name : String := "\\x01?sAtoms@nsGkAtoms@@0QBVnsStaticAtom@@B"

/-- The `msvc64_name` from `write_atom_macro`: the 64-bit MSVC mangled name (no
escape marker in the source). -/
def msvc64_name : String := "?sAtoms@nsGkAtoms@@0QEBVnsStaticAtom@@EB"

/-- The `CFG_IF_TEMPLATE.format(gnu=..., msvc32=..., msvc64=...)` from the source.
The `{{`/`}}` pairs in the Python literal are literal braces, and each
trailing backslash elides the newline after an interpolated block. -/
def CFG_IF_TEMPLATE (gnu msvc32 msvc64 : String) : String :=
  "\ncfg_if! \x7b\n    if #[cfg(not(target_env = \"msvc\"))] \x7b\n        extern \x7b\n" ++ gnu ++
  "        \x7d\n    \x7d else if #[cfg(target_pointer_width = \"64\")] \x7b\n        extern \x7b\n" ++ msvc64 ++
  "        \x7d\n    \x7d else \x7b\n        extern \x7b\n" ++ msvc32 ++
  "        \x7d\n    \x7d\n\x7d\n\n"

/-- The `CONST_TEMPLATE.format(name=..., index=...)` from the source (`[1:]`
strips the leading newline); `index` comes from `enumerate`, so it is a
natural number rendered in decimal. -/
def CONST_TEMPLATE (name : String) (index : Nat) : String :=
  "pub const k_" ++ name ++ ": isize = " ++ toString index ++ ";\n"

/-- The `RULE_TEMPLATE.format(atom=..., name=...)` from the source (`[1:]` strips
the leading newline; `{{{{` renders as two literal braces). -/
def RULE_TEMPLATE (atom name : String) : String :=
  "(\"" ++ atom ++ "\") =>\n    \x7b\x7b\n        use $crate::string_cache::atom_macro;\n        #[allow(unsafe_code)] #[allow(unused_unsafe)]\n        unsafe \x7b atom_macro::atom_from_static(atom_macro::nsGkAtoms_sAtoms.offset(atom_macro::k_" ++ name ++ ")) \x7d\n    \x7d\x7d;\n"

/-- The `MACRO_TEMPLATE.format(body=...)` from the source. -/
def MACRO_TEMPLATE (body : String) : String :=
  "\n#[macro_export]\nmacro_rules! atom \x7b\n" ++ body ++ "\x7d\n"

/-- The `gnu_symbols` from `write_atom_macro`. -/
def gnu_symbols : String := SATOMS_TEMPLATE gnu_name

/-- The `msvc32_symbols` from `write_atom_macro`. -/
def msvc32_symbols : String := SATOMS_TEMPLATE msvc32_name

/-- The `msvc64_symbols` from `write_atom_macro`. -/
def msvc64_symbols : String := SATOMS_TEMPLATE msvc64_name

/-- The platform-conditional block exactly as `write_atom_macro` writes it. -/
def cfg_if_block : String := CFG_IF_TEMPLATE gnu_symbols msvc32_symbols msvc64_symbols

/-- The `consts` list of `write_atom_macro`:
`[CONST_TEMPLATE.format(name=atom.ident, index=i) for (i, atom) in enumerate(atoms)]`. -/
def const_lines (atoms : List Atom) : List String :=
  atoms.enum.map fun p => CONST_TEMPLATE p.2.ident p.1

/-- The `macro_rules` list of `write_atom_macro`:
`[RULE_TEMPLATE.format(atom=atom.value, name=atom.ident) for atom in atoms]`. -/
def rule_lines (atoms : List Atom) : List String :=
  atoms.map fun a => RULE_TEMPLATE a.value a.ident

/-- The full byte content `write_atom_macro` accumulates in its
`FileAvoidWrite` buffer: the concatenation of its `f.write` calls in order. -/
def write_atom_macro_content (atoms : List Atom) : String :=
  PRELUDE ++ IMPORTS ++ UNSAFE_STATIC ++ cfg_if_block
    ++ String.join (const_lines atoms)
    ++ MACRO_TEMPLATE (String.join (rule_lines atoms))

/-- The accumulation loop at the head of `write_pseudo_elements`: start from
an empty list and append each atom whose `type()` is `nsICSSPseudoElement` or
`nsICSSAnonBoxPseudo`. -/
def pseudosLoop (atoms : List Atom) : List Atom :=
  atoms.foldl
    (fun pseudos atom =>
      if atom.type == "nsICSSPseudoElement" || atom.type == "nsICSSAnonBoxPseudo"
      then pseudos ++ [atom]
      else pseudos)
    []

/-- The filter predicate of `write_pseudo_elements`. -/
def isPseudoElementType (a : Atom) : Bool :=
  a.type == "nsICSSPseudoElement" || a.type == "nsICSSAnonBoxPseudo"

/-- Consumes an expected prefix, returning the remainder. -/
def stripPrefixChars : List Char → List Char → Option (List Char)
  | [], cs => some cs
  | _ :: _, [] => none
  | p :: ps, c :: cs => if c = p then stripPrefixChars ps cs else none

/-- Consumes one expected character. -/
def expectChar (c : Char) : List Char → Option (List Char)
  | [] => none
  | d :: ds => if d = c then some ds else none

/-- The Python whitespace character class `\s`. -/
def isPySpace (c : Char) : Bool :=
  c = ' ' || c = '\t' || c = '\n' || c = '\x0b' || c = '\x0c' || c = '\r'

/-- Lowercase hexadecimal digit, the class `[0-9a-f]` of `PATTERN`. -/
def isHexLower (c : Char) : Bool :=
  ('0' ≤ c && c ≤ '9') || ('a' ≤ c && c ≤ 'f')

/-- The regular expression `PATTERN` of the source,
`^GK_ATOM\(([^,]*),[^"]*"([^"]*)",\s*(0x[0-9a-f]+),\s*([^,]*),\s*([^)]*)\)`,
applied at the start of `cs`, returning the five captured groups.

Although the Python engine backtracks, this pattern is deterministic, piece by
piece: `([^,]*),` can only match the (comma-free) segment before the first
comma; `[^"]*"` and `([^"]*)"` can only reach the first double quote;
a greedy `\s*` followed by a non-space requirement must take the maximal
whitespace run; and `[0-9a-f]+` followed by `,` must take the maximal digit
run, because shrinking it would put a digit where the comma is required.  So
a single forward pass decides the match, which this function performs. -/
def matchGkAtomAt (cs : List Char) : Option (String × String × String × String × String) := do
  let rest ← stripPrefixChars "GK_ATOM(".data cs
  let (g1, rest) ← splitFirstOn ',' rest
  let (_, rest) ← splitFirstOn '"' rest
  let (g2, rest) ← splitFirstOn '"' rest
  let rest ← expectChar ',' rest
  let rest := rest.dropWhile isPySpace
  let rest ← expectChar '0' rest
  let rest ← expectChar 'x' rest
  let digits := rest.takeWhile isHexLower
  let rest := rest.dropWhile isHexLower
  if digits.isEmpty then none
  else do
    let rest ← expectChar ',' rest
    let rest := rest.dropWhile isPySpace
    let (g4, rest) ← splitFirstOn ',' rest
    let rest := rest.dropWhile isPySpace
    let (g5, _) ← splitFirstOn ')' rest
    some (String.mk g1, String.mk g2, "0x" ++ String.mk digits,
          String.mk g4, String.mk g5)

/-- The `collect_atoms` restricted to a content string that is one line (no
newline character): under `re.MULTILINE` the anchor `^` matches only at
position 0 of such a string, so `finditer` attempts the pattern only there
and yields at most one match.  Each match is passed to `Atom.__init__`, whose
raised exception would abort the run (`none`); otherwise the collected list
is returned. -/
def collect_atoms_line (line : String) : Option (List Atom) :=
  match matchGkAtomAt line.data with
  | none => some []
  | some (g1, g2, g3, g4, g5) => (mkAtom g1 g2 g3 g4 g5).map fun a => [a]

/-- The filesystem, as the change-aware writer observes it: a map from path
to the byte content of the file there, `none` when opening for read raises
`IOError`. -/
abbrev FS := String → Option String

/-- Writing a file: the path now holds exactly `buf`. -/
def FS.update (fs : FS) (name buf : String) : FS :=
  fun p => if p = name then some buf else fs p

/-- The `FileAvoidWrite.close` from the source, on a buffer holding `buf`: read
the current content of `self.name`; when the read succeeds and the content
equals `buf`, skip (no write); otherwise (different content, or `IOError`
on open) write `buf`.  Returns the new filesystem and whether a write to the
target path happened. -/
def FileAvoidWrite.close (fs : FS) (name buf : String) : FS × Bool :=
  match fs name with
  | some old => if old = buf then (fs, false) else (FS.update fs name buf, true)
  | none => (FS.update fs name buf, true)

/-- The `FileAvoidWrite.__exit__` from the source: whatever exception `exc` is
propagating (or none), close the buffer unless it is already closed. -/
def FileAvoidWrite.exit (exc : Option String) (closed : Bool) (fs : FS)
    (name buf : String) : FS × Bool :=
  if closed then (fs, false) else FileAvoidWrite.close fs name buf

/-- A `with FileAvoidWrite(name) as f:` scope whose body performed the given
sequence of `f.write` calls (each accumulating into the `BytesIO` buffer)
before exiting, normally (`exc = none`) or with a propagating exception
(`exc = some e`).  The Python `with` statement runs `__exit__` on every exit
path; the buffer is still open since the body only writes. -/
def withFileAvoidWrite (fs : FS) (name : String) (writes : List String)
    (exc : Option String) : FS × Bool :=
  FileAvoidWrite.exit exc false fs name (String.join writes)

/-- The `generate_atoms` from the source, over an already-collected atom list:
`write_atom_macro` derives its bytes and closes them to `out/atom_macro.rs`;
`write_pseudo_elements` renders the filtered atoms through the external
collaborator `build.render` (here a parameter `render`, any function — the
template path is fixed, so the rendered text depends only on the filtered
atoms) and closes them to `out/pseudo_element_definition.rs`.  Returns the
filesystem after the run and the two write-happened flags. -/
def generate_atoms (render : List Atom → String) (atoms : List Atom)
    (out : String) (fs : FS) : FS × Bool × Bool :=
  let r1 := FileAvoidWrite.close fs (out ++ "/atom_macro.rs")
      (write_atom_macro_content atoms)
  let r2 := FileAvoidWrite.close r1.1 (out ++ "/pseudo_element_definition.rs")
      (render (pseudosLoop atoms))
  (r2.1, r1.2, r2.2)

/-! Helper lemmas (shared by several claim theorems). -/

/-- Updating a path makes it hold the written bytes. -/
theorem FS.update_self (fs : FS) (name buf : String) :
    FS.update fs name buf name = some buf := by
  simp [FS.update]

/-- Updating a path leaves every other path unchanged. -/
theorem FS.update_other (fs : FS) (name buf p : String) (h : p ≠ name) :
    FS.update fs name buf p = fs p := by
  simp [FS.update, h]

/-- After `close`, the target path holds exactly the buffered bytes. -/
theorem close_fst_self (fs : FS) (name buf : String) :
    (FileAvoidWrite.close fs name buf).1 name = some buf := by
  unfold FileAvoidWrite.close
  cases hf : fs name with
  | none => simp [FS.update]
  | some old =>
    by_cases h : old = buf
    · simp [h, hf]
    · simp [h, FS.update]

/-- Closing touches no path other than the target. -/
theorem close_fst_other (fs : FS) (name buf p : String) (h : p ≠ name) :
    (FileAvoidWrite.close fs name buf).1 p = fs p := by
  unfold FileAvoidWrite.close
  cases hf : fs name with
  | none => simp [FS.update, h]
  | some old =>
    by_cases ho : old = buf
    · simp [ho]
    · simp [ho, FS.update, h]

/-- When the on-disk content already equals the buffer, `close` is a no-op
and reports no write. -/
theorem close_noop (fs : FS) (name buf : String) (h : fs name = some buf) :
    FileAvoidWrite.close fs name buf = (fs, false) := by
  unfold FileAvoidWrite.close
  rw [h]
  simp

/-- Appending different-length suffixes to the same prefix gives different
strings (used to separate the two output paths). -/
theorem append_ne_of_length_ne (s t u : String) (h : t.length ≠ u.length) :
    s ++ t ≠ s ++ u := by
  intro he
  have hl := congrArg String.length he
  rw [String.length_append, String.length_append] at hl
  omega

/-- The `splitFirstOn` fails exactly when the separator does not occur. -/
theorem splitFirstOn_eq_none_iff (c : Char) (cs : List Char) :
    splitFirstOn c cs = none ↔ c ∉ cs := by
  induction cs with
  | nil => simp [splitFirstOn]
  | cons d ds ih =>
    unfold splitFirstOn
    by_cases h : d = c
    · subst h
      simp
    · rw [if_neg h]
      cases hs : splitFirstOn c ds with
      | none =>
        simp only [List.mem_cons, not_or]
        constructor
        · intro _
          exact ⟨fun hcd => h hcd.symm, ih.mp hs⟩
        · intro _
          trivial
      | some p =>
        have hmem : c ∈ ds := by
          by_contra hne
          have hnone := ih.mpr hne
          rw [hs] at hnone
          exact Option.noConfusion hnone
        simp only [List.mem_cons, not_or]
        constructor
        · intro hfalse
          exact Option.noConfusion hfalse
        · intro hno
          exact absurd hmem hno.2

/-- Successful construction fixes the qualified identifier and the raw
category tag of the record. -/
theorem mkAtom_some_fields (ident value hash ty atom_type : String) (a : Atom) :
    mkAtom ident value hash ty atom_type = some a →
    a.ident = "nsGkAtoms_" ++ ident ∧ a.atom_type = atom_type := by
  unfold mkAtom
  split
  · split
    · intro h
      exact Option.noConfusion h
    · split
      · intro h
        exact Option.noConfusion h
      · intro h
        cases Option.some.inj h
        exact ⟨rfl, rfl⟩
  · intro h
    cases Option.some.inj h
    exact ⟨rfl, rfl⟩

/-- The append-accumulate fold underlying `write_pseudo_elements` equals
`filter` relative to any starting accumulator. -/
theorem foldl_append_filter (p : Atom → Bool) (l acc : List Atom) :
    l.foldl (fun ps a => if p a then ps ++ [a] else ps) acc
      = acc ++ l.filter p := by
  induction l generalizing acc with
  | nil => simp
  | cons a l ih =>
    by_cases h : p a
    · simp [List.foldl_cons, h, ih, List.filter_cons]
    · simp [List.foldl_cons, h, ih, List.filter_cons]

/-- The accumulation loop of `write_pseudo_elements` is a filter. -/
theorem pseudosLoop_eq_filter (atoms : List Atom) :
    pseudosLoop atoms = atoms.filter isPseudoElementType := by
  have h : pseudosLoop atoms
      = atoms.foldl (fun ps a => if isPseudoElementType a then ps ++ [a] else ps) [] := rfl
  rw [h, foldl_append_filter]
  simp

/-! Claim C1. -/

/-- C1 counterexample: constructing the record for the reserved identifier
`type` yields the qualified identifier `nsGkAtoms_type` with no trailing
marker, the constant line the macro-table emitter derives from it is keyed
`k_nsGkAtoms_type`, and that identifier differs from the escaped
`nsGkAtoms_type_` the claim requires. -/
theorem c1_counterexample :
    mkAtom "type" "type" "0xabcdef01" "nsStaticAtom" "Atom"
      = some ⟨"nsGkAtoms_type", "type", "type", "0xabcdef01", "nsStaticAtom", "Atom", none⟩
    ∧ const_lines [⟨"nsGkAtoms_type", "type", "type", "0xabcdef01", "nsStaticAtom", "Atom", none⟩]
      = ["pub const k_nsGkAtoms_type: isize = 0;\n"]
    ∧ ("nsGkAtoms_type" : String) ≠ "nsGkAtoms_type_" := by
  refine ⟨rfl, rfl, ?_⟩
  decide

/-- C1 (amended): the qualified identifier of every constructed record is the
fixed prefix `nsGkAtoms_` followed by the original identifier unchanged — no
reserved-keyword escaping is applied to it; the helper `map_atom` (which the
generator never calls) is what appends the trailing marker to a reserved
keyword such as `type` while leaving a non-colliding identifier such as `foo`
unchanged. -/
theorem c1_qualified_identifier_unescaped :
    (∀ ident value hash ty atom_type a,
        mkAtom ident value hash ty atom_type = some a →
        a.ident = "nsGkAtoms_" ++ ident)
    ∧ map_atom "type" = "type_" ∧ map_atom "foo" = "foo" := by
  refine ⟨?_, by decide, by decide⟩
  intro ident value hash ty atom_type a h
  exact (mkAtom_some_fields ident value hash ty atom_type a h).1

/-- C1 witness: the amended statement at the concrete record for `type`. -/
theorem c1_qualified_identifier_unescaped_witness :
    Atom.ident ⟨"nsGkAtoms_type", "type", "t", "0x0", "nsStaticAtom", "Atom", none⟩
      = "nsGkAtoms_" ++ "type" :=
  c1_qualified_identifier_unescaped.1 "type" "t" "0x0" "nsStaticAtom" "Atom"
    ⟨"nsGkAtoms_type", "type", "t", "0x0", "nsStaticAtom", "Atom", none⟩ rfl

/-! Claim C2. -/

/-- C2 counterexample: on the single header line given by the claim,
`GK_ATOM(foo, "", "foo", 0x12345678, nsStaticAtom, Atom)` the pattern does
not match (after the first quoted segment `""` it requires the hexadecimal
hash, but the line continues with `"foo"`), so the extractor produces zero
records, not exactly one. -/
theorem c2_counterexample :
    collect_atoms_line "GK_ATOM(foo, \"\", \"foo\", 0x12345678, nsStaticAtom, Atom)"
      = some []
    ∧ (collect_atoms_line "GK_ATOM(foo, \"\", \"foo\", 0x12345678, nsStaticAtom, Atom)").map
        List.length ≠ some 1 := by
  have h1 : collect_atoms_line "GK_ATOM(foo, \"\", \"foo\", 0x12345678, nsStaticAtom, Atom)"
      = some [] := rfl
  refine ⟨h1, ?_⟩
  rw [h1]
  simp

/-- C2 (amended): the scenario line must use the five-field shape the pattern
recognizes: on `GK_ATOM(foo, "foo", 0x12345678, nsStaticAtom, Atom)` the
extractor produces exactly one record with qualified identifier
`nsGkAtoms_foo`, the macro-table emitter assigns it constant index 0, and its
dispatch rule is keyed on the literal `"foo"`; the six-field claim line
produces zero records. -/
theorem c2_single_line_scenario :
    collect_atoms_line "GK_ATOM(foo, \"foo\", 0x12345678, nsStaticAtom, Atom)"
      = some [⟨"nsGkAtoms_foo", "foo", "foo", "0x12345678", "nsStaticAtom", "Atom", none⟩]
    ∧ const_lines [⟨"nsGkAtoms_foo", "foo", "foo", "0x12345678", "nsStaticAtom", "Atom", none⟩]
      = ["pub const k_nsGkAtoms_foo: isize = 0;\n"]
    ∧ rule_lines [⟨"nsGkAtoms_foo", "foo", "foo", "0x12345678", "nsStaticAtom", "Atom", none⟩]
      = [RULE_TEMPLATE "foo" "nsGkAtoms_foo"]
    ∧ (RULE_TEMPLATE "foo" "nsGkAtoms_foo").data.take 10 = "(\"foo\") =>".data
    ∧ collect_atoms_line "GK_ATOM(foo, \"\", \"foo\", 0x12345678, nsStaticAtom, Atom)"
      = some [] := by
  refine ⟨rfl, rfl, rfl, by decide, rfl⟩

/-! Claim C3. -/

/-- C3 counterexample: in the platform-conditional block the 32-bit MSVC link
name has the `\x01` escape marker prepended but the 64-bit MSVC link name
does not, contradicting the claim that both MSVC variants have it. -/
theorem c3_counterexample :
    msvc32_name.data.take 4 = ESCAPE_MARKER.data
    ∧ msvc64_name.data.take 4 ≠ ESCAPE_MARKER.data := by
  decide

/-- C3 (amended): only the 32-bit MSVC variant prepends the escape marker to
its mangled external symbol name; the 64-bit MSVC and non-MSVC variants do
not, and the generated platform-conditional block embeds the three names
through `SATOMS_TEMPLATE`. -/
theorem c3_escape_marker_msvc32_only :
    msvc32_name = ESCAPE_MARKER ++ "?sAtoms@nsGkAtoms@@0QBVnsStaticAtom@@B"
    ∧ msvc64_name.data.take 4 ≠ ESCAPE_MARKER.data
    ∧ gnu_name.data.take 4 ≠ ESCAPE_MARKER.data
    ∧ cfg_if_block
      = CFG_IF_TEMPLATE (SATOMS_TEMPLATE gnu_name) (SATOMS_TEMPLATE msvc32_name)
          (SATOMS_TEMPLATE msvc64_name) := by
  refine ⟨by decide, by decide, by decide, rfl⟩

/-! Claim C4. -/

/-- C4: for every scope of the change-aware writer, every sequence of writes
performed inside it, and every exit path (normal, or with a propagating
exception), on scope exit the accumulated bytes end up at the target path;
the write happens exactly when the on-disk content differed (a missing file
counting as different); and when the content was equal the filesystem is left
completely unchanged. -/
theorem c4_scope_exit_writes_iff_changed (fs : FS) (name : String)
    (writes : List String) (exc : Option String) :
    ((withFileAvoidWrite fs name writes exc).1 name = some (String.join writes))
    ∧ ((withFileAvoidWrite fs name writes exc).2 = true
        ↔ fs name ≠ some (String.join writes))
    ∧ ((withFileAvoidWrite fs name writes exc).2 = false
        → (withFileAvoidWrite fs name writes exc).1 = fs) := by
  have hw : withFileAvoidWrite fs name writes exc
      = FileAvoidWrite.close fs name (String.join writes) := rfl
  rw [hw]
  unfold FileAvoidWrite.close
  cases hf : fs name with
  | none =>
    refine ⟨FS.update_self fs name _, by simp [hf], ?_⟩
    intro hcontra
    exact absurd hcontra (by simp)
  | some old =>
    by_cases ho : old = String.join writes
    · subst ho
      simp [hf]
    · simp only [if_neg ho]
      refine ⟨FS.update_self fs name _, by simp [hf, ho], ?_⟩
      intro hcontra
      exact absurd hcontra (by simp)

/-- C4 witness: the theorem at a concrete empty filesystem, writes
`["a", "b"]`, and a propagating exception. -/
theorem c4_scope_exit_writes_iff_changed_witness :
    ((withFileAvoidWrite (fun _ => none) "out.rs" ["a", "b"] (some "err")).1 "out.rs"
      = some (String.join ["a", "b"]))
    ∧ ((withFileAvoidWrite (fun _ => none) "out.rs" ["a", "b"] (some "err")).2 = true
        ↔ (fun _ => none : FS) "out.rs" ≠ some (String.join ["a", "b"]))
    ∧ ((withFileAvoidWrite (fun _ => none) "out.rs" ["a", "b"] (some "err")).2 = false
        → (withFileAvoidWrite (fun _ => none) "out.rs" ["a", "b"] (some "err")).1
          = (fun _ => none : FS)) :=
  c4_scope_exit_writes_iff_changed (fun _ => none) "out.rs" ["a", "b"] (some "err")

/-! Claim C5. -/

/-- C5: running the generator twice with unchanged input produces
byte-identical content for both output files, and the second run writes to
neither: it returns the filesystem of the first run unchanged with both
write-happened flags false, while after the first run each output path
already holds exactly the derived bytes. -/
theorem c5_second_run_writes_nothing (render : List Atom → String)
    (atoms : List Atom) (out : String) (fs : FS) :
    generate_atoms render atoms out ((generate_atoms render atoms out fs).1)
      = ((generate_atoms render atoms out fs).1, false, false)
    ∧ (generate_atoms render atoms out fs).1 (out ++ "/atom_macro.rs")
      = some (write_atom_macro_content atoms)
    ∧ (generate_atoms render atoms out fs).1 (out ++ "/pseudo_element_definition.rs")
      = some (render (pseudosLoop atoms)) := by
  have hne : (out ++ "/atom_macro.rs") ≠ (out ++ "/pseudo_element_definition.rs") :=
    append_ne_of_length_ne out _ _ (by decide)
  have hfst : (generate_atoms render atoms out fs).1
      = (FileAvoidWrite.close
          (FileAvoidWrite.close fs (out ++ "/atom_macro.rs")
            (write_atom_macro_content atoms)).1
          (out ++ "/pseudo_element_definition.rs") (render (pseudosLoop atoms))).1 := rfl
  have h1 : (generate_atoms render atoms out fs).1 (out ++ "/atom_macro.rs")
      = some (write_atom_macro_content atoms) := by
    rw [hfst, close_fst_other _ _ _ _ hne]
    exact close_fst_self ..
  have h2 : (generate_atoms render atoms out fs).1 (out ++ "/pseudo_element_definition.rs")
      = some (render (pseudosLoop atoms)) := by
    rw [hfst]
    exact close_fst_self ..
  have hrun : ∀ F : FS,
      F (out ++ "/atom_macro.rs") = some (write_atom_macro_content atoms) →
      F (out ++ "/pseudo_element_definition.rs") = some (render (pseudosLoop atoms)) →
      generate_atoms render atoms out F = (F, false, false) := by
    intro F hF1 hF2
    have e1 : FileAvoidWrite.close F (out ++ "/atom_macro.rs")
        (write_atom_macro_content atoms) = (F, false) := close_noop _ _ _ hF1
    have e2 : FileAvoidWrite.close F (out ++ "/pseudo_element_definition.rs")
        (render (pseudosLoop atoms)) = (F, false) := close_noop _ _ _ hF2
    simp [generate_atoms, e1, e2]
  exact ⟨hrun _ h1 h2, h1, h2⟩

/-! Claim C6. -/

/-- C6: the macro-table emitter emits exactly one constant line per record
(the emitted list has the same length as the record list), and the line at
position `i` is rendered from the `i`-th record with constant value `i`, its
zero-based position in extraction order — no deduplication, sorting, or
renumbering. -/
theorem c6_constants_enumerate_records (atoms : List Atom) :
    (const_lines atoms).length = atoms.length
    ∧ ∀ (i : Nat) (a : Atom), atoms[i]? = some a →
        (const_lines atoms)[i]? = some (CONST_TEMPLATE a.ident i) := by
  constructor
  · simp [const_lines, List.enum_length]
  · intro i a h
    simp [const_lines, List.getElem?_map, List.getElem?_enum, h]

/-- C6 witness: at a concrete two-record list, the second emitted line is
rendered from the second record with constant value 1. -/
theorem c6_constants_enumerate_records_witness :
    ([⟨"nsGkAtoms_a", "a", "a", "0x1", "nsStaticAtom", "Atom", none⟩,
      ⟨"nsGkAtoms_b", "b", "b", "0x2", "nsStaticAtom", "Atom", none⟩] : List Atom)[1]?
      = some ⟨"nsGkAtoms_b", "b", "b", "0x2", "nsStaticAtom", "Atom", none⟩
    ∧ (const_lines [⟨"nsGkAtoms_a", "a", "a", "0x1", "nsStaticAtom", "Atom", none⟩,
        ⟨"nsGkAtoms_b", "b", "b", "0x2", "nsStaticAtom", "Atom", none⟩])[1]?
      = some (CONST_TEMPLATE "nsGkAtoms_b" 1) :=
  ⟨rfl, (c6_constants_enumerate_records _).2 1 _ rfl⟩

/-! Claim C7. -/

/-- C7: every successfully constructed record that `is_anon_box()` classifies
as an anon box satisfies exactly one of the two sub-variant predicates, and
construction fixes `atom_type` to the tag it was given.  (A record whose
category is anon-box but whose tag is neither sub-variant cannot exist at
all: `is_anon_box` is defined as the disjunction of the two sub-variant
predicates, which also makes the construction-time assertion unfalsifiable.) -/
theorem c7_anon_box_exactly_one_subvariant
    (ident value hash ty atom_type : String) (a : Atom)
    (h : mkAtom ident value hash ty atom_type = some a)
    (hbox : a.is_anon_box = true) :
    a.atom_type = atom_type
    ∧ ((a.is_inheriting_anon_box = true ∧ a.is_non_inheriting_anon_box = false)
        ∨ (a.is_non_inheriting_anon_box = true ∧ a.is_inheriting_anon_box = false)) := by
  refine ⟨(mkAtom_some_fields ident value hash ty atom_type a h).2, ?_⟩
  by_cases hni : a.atom_type = "NonInheritingAnonBoxAtom"
  · right
    refine ⟨by simp [Atom.is_non_inheriting_anon_box, hni], by simp [Atom.is_inheriting_anon_box, hni]⟩
  · left
    have hin : a.atom_type = "InheritingAnonBoxAtom" := by
      have hb := hbox
      simp [Atom.is_anon_box, Atom.is_non_inheriting_anon_box,
        Atom.is_inheriting_anon_box] at hb
      rcases hb with hl | hr
      · exact absurd hl hni
      · exact hr
    refine ⟨by simp [Atom.is_inheriting_anon_box, hin], by simp [Atom.is_non_inheriting_anon_box, hni]⟩

/-- C7 witness: the theorem at a concrete inheriting anon-box record. -/
theorem c7_anon_box_exactly_one_subvariant_witness :
    mkAtom "a_b" "v" "0x0" "nsICSSAnonBoxPseudo" "InheritingAnonBoxAtom"
      = some ⟨"nsGkAtoms_a_b", "a_b", "v", "0x0", "nsICSSAnonBoxPseudo",
          "InheritingAnonBoxAtom", some "b"⟩
    ∧ Atom.is_anon_box ⟨"nsGkAtoms_a_b", "a_b", "v", "0x0", "nsICSSAnonBoxPseudo",
        "InheritingAnonBoxAtom", some "b"⟩ = true
    ∧ (Atom.atom_type ⟨"nsGkAtoms_a_b", "a_b", "v", "0x0", "nsICSSAnonBoxPseudo",
          "InheritingAnonBoxAtom", some "b"⟩ = "InheritingAnonBoxAtom"
        ∧ ((Atom.is_inheriting_anon_box ⟨"nsGkAtoms_a_b", "a_b", "v", "0x0",
              "nsICSSAnonBoxPseudo", "InheritingAnonBoxAtom", some "b"⟩ = true
            ∧ Atom.is_non_inheriting_anon_box ⟨"nsGkAtoms_a_b", "a_b", "v", "0x0",
              "nsICSSAnonBoxPseudo", "InheritingAnonBoxAtom", some "b"⟩ = false)
          ∨ (Atom.is_non_inheriting_anon_box ⟨"nsGkAtoms_a_b", "a_b", "v", "0x0",
              "nsICSSAnonBoxPseudo", "InheritingAnonBoxAtom", some "b"⟩ = true
            ∧ Atom.is_inheriting_anon_box ⟨"nsGkAtoms_a_b", "a_b", "v", "0x0",
              "nsICSSAnonBoxPseudo", "InheritingAnonBoxAtom", some "b"⟩ = false))) :=
  ⟨rfl, by decide,
    c7_anon_box_exactly_one_subvariant "a_b" "v" "0x0" "nsICSSAnonBoxPseudo"
      "InheritingAnonBoxAtom" _ rfl (by decide)⟩

/-! Claim C8. -/

/-- C8: the sequence handed to the external renderer is exactly the records
whose declared type is `nsICSSPseudoElement` or `nsICSSAnonBoxPseudo`, in
their original relative order: the accumulation loop equals `List.filter`
with that predicate, the result is an order-preserving subsequence of the
input, and the bytes written to the second output path are the renderer
applied to exactly that filtered list. -/
theorem c8_renderer_receives_filtered_subsequence (render : List Atom → String)
    (atoms : List Atom) (out : String) (fs : FS) :
    pseudosLoop atoms = atoms.filter isPseudoElementType
    ∧ (pseudosLoop atoms).Sublist atoms
    ∧ (generate_atoms render atoms out fs).1 (out ++ "/pseudo_element_definition.rs")
      = some (render (atoms.filter isPseudoElementType)) := by
  refine ⟨pseudosLoop_eq_filter atoms, ?_, ?_⟩
  · rw [pseudosLoop_eq_filter]
    exact List.filter_sublist atoms
  · have hfst : (generate_atoms render atoms out fs).1
        = (FileAvoidWrite.close
            (FileAvoidWrite.close fs (out ++ "/atom_macro.rs")
              (write_atom_macro_content atoms)).1
            (out ++ "/pseudo_element_definition.rs") (render (pseudosLoop atoms))).1 := rfl
    rw [hfst, ← pseudosLoop_eq_filter]
    exact close_fst_self ..

/-! Claim C9. -/

/-- C9: for the category tags `PseudoElementAtom`, `InheritingAnonBoxAtom`
and `NonInheritingAnonBoxAtom`, construction fails exactly on identifiers
containing no underscore: with no underscore the constructor raises (deriving
the pseudo name indexes past the end of a one-element split), and it
succeeds whenever the identifier contains at least one underscore. -/
theorem c9_pseudo_categories_require_underscore
    (ident value hash ty atom_type : String)
    (htag : atom_type = "PseudoElementAtom" ∨ atom_type = "InheritingAnonBoxAtom"
        ∨ atom_type = "NonInheritingAnonBoxAtom") :
    (('_' ∉ ident.data) → mkAtom ident value hash ty atom_type = none)
    ∧ (('_' ∈ ident.data) → ∃ a, mkAtom ident value hash ty atom_type = some a) := by
  have hcond : (isPseudoTag atom_type || isAnonBoxTag atom_type) = true := by
    rcases htag with h | h | h <;> subst h <;> decide
  have hassert : (isAnonBoxTag atom_type &&
      !(isInheritingTag atom_type || isNonInheritingTag atom_type)) = false := by
    rcases htag with h | h | h <;> subst h <;> decide
  constructor
  · intro hno
    have hsplit : splitFirstOn '_' ident.data = none :=
      (splitFirstOn_eq_none_iff '_' ident.data).mpr hno
    unfold mkAtom
    rw [if_pos hcond]
    unfold splitOnceTail
    rw [hsplit]
    rfl
  · intro hyes
    cases hs : splitFirstOn '_' ident.data with
    | none =>
      exact absurd hyes ((splitFirstOn_eq_none_iff '_' ident.data).mp hs)
    | some p =>
      refine ⟨Atom.mk ("nsGkAtoms_" ++ ident) ident value hash ty atom_type
          (some (String.mk p.2)), ?_⟩
      unfold mkAtom splitOnceTail
      rw [if_pos hcond, hs]
      show (if (isAnonBoxTag atom_type &&
            !(isInheritingTag atom_type || isNonInheritingTag atom_type)) = true
          then none
          else some (Atom.mk ("nsGkAtoms_" ++ ident) ident value hash ty atom_type
            (some (String.mk p.2))))
        = some (Atom.mk ("nsGkAtoms_" ++ ident) ident value hash ty atom_type
            (some (String.mk p.2)))
      simp only [hassert]
      simp

/-- C9 witness: the pseudo-element tag with the underscore-free identifier
`foo` aborts construction. -/
theorem c9_pseudo_categories_require_underscore_witness :
    ("PseudoElementAtom" = "PseudoElementAtom"
        ∨ "PseudoElementAtom" = "InheritingAnonBoxAtom"
        ∨ "PseudoElementAtom" = "NonInheritingAnonBoxAtom")
    ∧ ('_' ∉ "foo".data)
    ∧ mkAtom "foo" "v" "0x0" "nsStaticAtom" "PseudoElementAtom" = none :=
  ⟨Or.inl rfl, by decide,
    (c9_pseudo_categories_require_underscore "foo" "v" "0x0" "nsStaticAtom"
        "PseudoElementAtom" (Or.inl rfl)).1 (by decide)⟩

/-! Claim C10. -/

/-- On record lists that agree on qualified identifier and literal value the
enumerated constant lines agree, for any starting index. -/
theorem enumFrom_const_lines_ext (n : Nat) (xs ys : List Atom)
    (h : xs.map (fun a => (a.ident, a.value)) = ys.map (fun a => (a.ident, a.value))) :
    (xs.enumFrom n).map (fun p => CONST_TEMPLATE p.2.ident p.1)
      = (ys.enumFrom n).map (fun p => CONST_TEMPLATE p.2.ident p.1) := by
  induction xs generalizing ys n with
  | nil =>
    cases ys with
    | nil => rfl
    | cons y ys => exact absurd h (by simp)
  | cons x xs ih =>
    cases ys with
    | nil => exact absurd h (by simp)
    | cons y ys =>
      simp only [List.map_cons, List.cons.injEq, Prod.mk.injEq] at h
      obtain ⟨⟨hi, _⟩, ht⟩ := h
      show CONST_TEMPLATE x.ident n :: (xs.enumFrom (n + 1)).map
            (fun p => CONST_TEMPLATE p.2.ident p.1)
        = CONST_TEMPLATE y.ident n :: (ys.enumFrom (n + 1)).map
            (fun p => CONST_TEMPLATE p.2.ident p.1)
      rw [hi, ih (n + 1) ys ht]

/-- The constant lines depend only on the identifier/value projections. -/
theorem const_lines_ext (xs ys : List Atom)
    (h : xs.map (fun a => (a.ident, a.value)) = ys.map (fun a => (a.ident, a.value))) :
    const_lines xs = const_lines ys :=
  enumFrom_const_lines_ext 0 xs ys h

/-- The dispatch rules depend only on the identifier/value projections. -/
theorem rule_lines_ext (xs ys : List Atom)
    (h : xs.map (fun a => (a.ident, a.value)) = ys.map (fun a => (a.ident, a.value))) :
    rule_lines xs = rule_lines ys := by
  have hx : rule_lines xs
      = (xs.map (fun a => (a.ident, a.value))).map (fun p => RULE_TEMPLATE p.2 p.1) := by
    rw [List.map_map]
    rfl
  have hy : rule_lines ys
      = (ys.map (fun a => (a.ident, a.value))).map (fun p => RULE_TEMPLATE p.2 p.1) := by
    rw [List.map_map]
    rfl
  rw [hx, hy, h]

/-- C10: the macro-table output bytes depend only on each qualified
identifier and literal value and on their order: two record sequences that
agree on those projections produce identical bytes, whatever their hashes or
declared types (the carried hash is never emitted into this file). -/
theorem c10_macro_bytes_ignore_hash_and_declared_type (xs ys : List Atom)
    (h : xs.map (fun a => (a.ident, a.value)) = ys.map (fun a => (a.ident, a.value))) :
    write_atom_macro_content xs = write_atom_macro_content ys := by
  unfold write_atom_macro_content
  rw [const_lines_ext xs ys h, rule_lines_ext xs ys h]

/-- C10 witness: two singleton record lists that differ in hash and declared
type but agree on identifier and value give identical macro-table bytes. -/
theorem c10_macro_bytes_ignore_hash_and_declared_type_witness :
    (([⟨"nsGkAtoms_a", "a", "a", "0x1", "nsStaticAtom", "Atom", none⟩] : List Atom).map
        (fun a => (a.ident, a.value))
      = ([⟨"nsGkAtoms_a", "a", "a", "0xffff", "nsICSSPseudoElement", "Atom", none⟩] :
          List Atom).map (fun a => (a.ident, a.value)))
    ∧ write_atom_macro_content
        [⟨"nsGkAtoms_a", "a", "a", "0x1", "nsStaticAtom", "Atom", none⟩]
      = write_atom_macro_content
        [⟨"nsGkAtoms_a", "a", "a", "0xffff", "nsICSSPseudoElement", "Atom", none⟩] :=
  ⟨rfl, c10_macro_bytes_ignore_hash_and_declared_type _ _ rfl⟩

end RegenAtoms
